import Mathlib

/-!
# Verification of the auth core of go-gin-api-server

Shallow embedding of the authentication/authorization core:

* `pkg/apperrors/errors.go` — the error taxonomy (sentinel errors);
* `pkg/utils/validator.go` — `JWTManager` (`GenerateToken`,
  `GenerateAccessToken`, `ValidateToken`);
* `internal/service/auth_service.go` — `authServiceImpl`
  (`Register`, `Login`, `RefreshToken`, `RefreshAccessToken`,
  `ValidateToken`, `isUnder13`, `isReservedUsername`);
* `internal/middleware/auth_middleware.go` — `AuthMiddleware.RequireAuth`
  and `tryAutoRefresh`;
* `internal/middleware/rbac_middleware.go` —
  `RBACMiddleware.RequireOwnershipOrAdmin`.

Modelling conventions:

* Machine time is an `Int` (seconds); `time.Now()` becomes an explicit
  parameter threaded to each operation that reads the clock.
  `go-gin-api-server` reads the clock twice inside
  `JWTManager.GenerateToken` (once inside the nested
  `GenerateAccessToken` call, once before building the refresh claims), so
  the embedding takes the two instants `nowA` and `nowR` separately.
* HMAC-SHA256 signing from `github.com/golang-jwt/jwt/v5` is modelled as
  an ideal MAC: the tag of a payload under a key *is* the pair
  (key, payload); verification recomputes the tag and compares.  A token
  string is either `malformed` (not three base64 segments — this includes
  the empty string) or a `signed` triple of algorithm, claims and tag.
* The golang-jwt v5 parser order is kept: structure, then the keyfunc
  (which in `validator.go` rejects every non-HMAC signing method), then
  signature verification, then claim validation (`exp` then `nbf`; `iat`
  is not verified by default in v5).  A token is expired iff
  `¬ (now < exp)` and not-yet-valid iff `now < nbf`, matching
  `cmp.Before` in the library's validator.
* Persistence (`UserRepository`, `AuthRepository`) and bcrypt
  (`utils.HashPassword` / `utils.CheckPassword`) are external
  collaborators behind interfaces; they are embedded as records of
  functions (oracles), and the service layer additionally returns the
  trace of store calls it issued, in order, so that frame properties
  ("create never invoked", "a delete is issued") are statable.
-/

/-- `pkg/apperrors/errors.go`: the sentinel error values.  The Go code
compares them by identity (`err == apperrors.ErrExpiredToken`), which the
embedding renders as equality of this enumeration. -/
inductive AppError where
  | notFound
  | validation
  | unauthorized
  | forbidden
  | userExists
  | userUnderAge
  | invalidToken
  | expiredToken
  deriving DecidableEq, Repr

/-- `model.UserRole` is a string type in Go; its zero value is `""`. -/
abbrev UserRole := String

/-- `model.RoleUser`. -/
def RoleUser : UserRole := "user"

/-- `model.RoleAdmin`. -/
def RoleAdmin : UserRole := "admin"

/-- `model.UserRole.IsAdmin`: `r == RoleAdmin`. -/
def UserRole.IsAdmin (r : UserRole) : Bool := r == RoleAdmin

/-- The fields of `model.User` the auth core reads or writes.  Timestamps
set by GORM hooks are irrelevant to every claim and elided. -/
structure UserModel where
  id : String
  name : String
  username : Option String
  email : Option String
  birthDate : Option (Int × Int)  -- (year, yearDay), the fields isUnder13 reads
  isActive : Bool
  role : UserRole
  deriving DecidableEq, Repr

/-- `model.CreateUser`: builds a user with `IsActive: true`; `ID` and
`Role` are left at their zero values (`""`). -/
def CreateUser (name : String) (username email : Option String)
    (birthDate : Option (Int × Int)) : UserModel :=
  { id := "", name := name, username := username, email := email,
    birthDate := birthDate, isActive := true, role := "" }

/-- `model.Claims`: `UserID`, `Role` and the embedded
`jwt.RegisteredClaims` fields the code sets (`ExpiresAt`, `IssuedAt`,
`NotBefore`, `Issuer`, `Subject`). -/
structure Claims where
  userID : String
  role : UserRole
  expiresAt : Int
  issuedAt : Int
  notBefore : Int
  issuer : String
  subject : String
  deriving DecidableEq, Repr

/-- `model.UserCredentials`: the fields the service layer sets. -/
structure UserCredentials where
  userID : String
  password : String
  deriving DecidableEq, Repr

/-- The JWT signing algorithms that matter to `validator.go`'s keyfunc:
the three HMAC methods of golang-jwt and a representative of everything
else (RSA, ECDSA, `none`, ...). -/
inductive Alg where
  | hs256
  | hs384
  | hs512
  | nonHMAC
  deriving DecidableEq, Repr

/-- The keyfunc's type assertion `token.Method.(*jwt.SigningMethodHMAC)`:
it accepts exactly the HMAC family. -/
def Alg.isHMAC : Alg → Bool
  | .hs256 => true
  | .hs384 => true
  | .hs512 => true
  | .nonHMAC => false

/-- Ideal MAC tag: the tag of a payload under a key and algorithm is the
triple itself, so two tags agree exactly when key, algorithm and payload
all agree (no collisions, no forgeries). -/
structure MacTag where
  key : String
  alg : Alg
  payload : Claims
  deriving DecidableEq, Repr

/-- Signing: computing the ideal MAC tag. -/
def hmacSign (key : String) (alg : Alg) (c : Claims) : MacTag :=
  ⟨key, alg, c⟩

/-- The space of token strings, as the golang-jwt v5 parser partitions
it: `malformed` strings (not `header.payload.signature` with decodable
segments — the empty string is one) and well-formed `signed` tokens
carrying an algorithm, a claims payload and a signature tag. -/
inductive Tok where
  | malformed (raw : String)
  | signed (alg : Alg) (claims : Claims) (sig : MacTag)
  deriving DecidableEq, Repr

/-- The claims segment of a well-formed token, if any. -/
def Tok.claims? : Tok → Option Claims
  | .malformed _ => none
  | .signed _ c _ => some c

/-- The distinct failures of `jwt.ParseWithClaims` that
`JWTManager.ValidateToken` can observe.  `invalidClaims` records which of
the always-checked registered claims failed (`exp`, `nbf`), because
`errors.Is(err, jwt.ErrTokenExpired)` asks exactly whether the expiry
check is among the joined claim-validation failures. -/
inductive ParseErr where
  | malformedToken
  | keyfuncFailed
  | signatureInvalid
  | invalidClaims (expired notYet : Bool)
  deriving DecidableEq, Repr

/-- `errors.Is(err, jwt.ErrTokenExpired)` on a parse failure. -/
def ParseErr.isExpired : ParseErr → Bool
  | .invalidClaims e _ => e
  | _ => false

/-- `jwt.ParseWithClaims` with `validator.go`'s keyfunc, in the v5
parser's order: structure, keyfunc (HMAC-only), signature, then claim
validation (`exp`, `nbf`). -/
def parseWithClaims (key : String) (now : Int) : Tok → Except ParseErr Claims
  | .malformed _ => .error .malformedToken
  | .signed alg c sig =>
    if !alg.isHMAC then .error .keyfuncFailed
    else if sig ≠ hmacSign key alg c then .error .signatureInvalid
    else
      let expired : Bool := decide (c.expiresAt ≤ now)
      let notYet : Bool := decide (now < c.notBefore)
      if expired || notYet then .error (.invalidClaims expired notYet)
      else .ok c

/-- `utils.JWTManager`: the shared secret and the configured access-token
lifetime (`tokenDuration`, in seconds). -/
structure JWTManager where
  secretKey : String
  tokenDuration : Int
  deriving DecidableEq, Repr

/-- `model.TokenResponse`. -/
structure TokenResponse where
  accessToken : Tok
  refreshToken : Tok
  tokenType : String
  expiresIn : Int
  deriving DecidableEq, Repr

/-- `JWTManager.GenerateAccessToken` at instant `now`: access claims with
`ExpiresAt = now + tokenDuration`, `IssuedAt = NotBefore = now`,
`Issuer = "go-gin-api-server"`, `Subject = UserID = user.ID`.  The Go
code never assigns `Role`, so the claims carry the zero role `""`. -/
def JWTManager.GenerateAccessToken (j : JWTManager) (now : Int)
    (user : UserModel) : Tok :=
  let c : Claims :=
    { userID := user.id, role := "",
      expiresAt := now + j.tokenDuration, issuedAt := now, notBefore := now,
      issuer := "go-gin-api-server", subject := user.id }
  .signed .hs256 c (hmacSign j.secretKey .hs256 c)

/-- `JWTManager.GenerateToken`: the access half at instant `nowA` (the
nested `GenerateAccessToken` call), then the refresh half at instant
`nowR` with `ExpiresAt = nowR + tokenDuration*24*7`; `TokenType` is
`"Bearer"` and `ExpiresIn` is the access lifetime in seconds.  As in
`GenerateAccessToken`, `Role` is never assigned. -/
def JWTManager.GenerateToken (j : JWTManager) (nowA nowR : Int)
    (user : UserModel) : TokenResponse :=
  let access := j.GenerateAccessToken nowA user
  let rc : Claims :=
    { userID := user.id, role := "",
      expiresAt := nowR + j.tokenDuration * 24 * 7,
      issuedAt := nowR, notBefore := nowR,
      issuer := "go-gin-api-server", subject := user.id }
  { accessToken := access,
    refreshToken := .signed .hs256 rc (hmacSign j.secretKey .hs256 rc),
    tokenType := "Bearer",
    expiresIn := j.tokenDuration }

/-- `JWTManager.ValidateToken`: parse, map `jwt.ErrTokenExpired` to
`apperrors.ErrExpiredToken` and every other parse failure to
`apperrors.ErrInvalidToken`; on success return the claims. -/
def JWTManager.ValidateToken (j : JWTManager) (now : Int) (tok : Tok) :
    Except AppError Claims :=
  match parseWithClaims j.secretKey now tok with
  | .error e => if e.isExpired then .error .expiredToken else .error .invalidToken
  | .ok c => .ok c

example :
    (JWTManager.mk "s" 900).ValidateToken 10
      ((JWTManager.mk "s" 900).GenerateAccessToken 0
        { id := "u1", name := "n", username := none, email := none,
          birthDate := none, isActive := true, role := "admin" })
      = .ok { userID := "u1", role := "", expiresAt := 900, issuedAt := 0,
              notBefore := 0, issuer := "go-gin-api-server", subject := "u1" } := by
  rfl

/-- `model.RegisterRequest` (binding-validated fields; `BirthDate` is a
nullable time, of which `isUnder13` reads year and year-day). -/
structure RegisterRequest where
  name : String
  birthDate : Option (Int × Int)
  username : String
  email : String
  password : String
  deriving DecidableEq, Repr

/-- `model.LoginRequest`. -/
structure LoginRequest where
  username : String
  email : String
  password : String
  deriving DecidableEq, Repr

/-- `repository.UserRepository`, an external collaborator, as an oracle:
each method is an arbitrary function returning either a value or an
error. -/
structure UserRepository where
  create : UserModel → Except AppError UserModel
  delete : String → Except AppError Unit
  findByID : String → Except AppError UserModel
  findByUsername : String → Except AppError UserModel
  findByEmail : String → Except AppError UserModel

/-- `repository.AuthRepository`, as an oracle. -/
structure AuthRepository where
  createCredentials : UserCredentials → Except AppError UserCredentials
  findByUserID : String → Except AppError UserCredentials

/-- `utils.HashPassword` / `utils.CheckPassword` (bcrypt), as oracles:
hashing may fail; the check returns `()` on a match and an error
otherwise. -/
structure PasswordHasher where
  hashPassword : String → Except AppError String
  checkPassword : String → String → Except AppError Unit

/-- One store call issued by the service layer, with its argument.
Failed calls are recorded too: the event is the call being issued. -/
inductive RepoEvent where
  | userCreate (u : UserModel)
  | userDelete (id : String)
  | userFindByID (id : String)
  | userFindByUsername (username : String)
  | userFindByEmail (email : String)
  | credCreate (c : UserCredentials)
  | credFindByUserID (id : String)
  deriving DecidableEq, Repr

/-- `service.authServiceImpl`: the injected repositories, the password
hasher and the `JWTManager`. -/
structure AuthServiceImpl where
  userRepo : UserRepository
  authRepo : AuthRepository
  hasher : PasswordHasher
  jwtMgr : JWTManager

/-- `authServiceImpl.isUnder13` at clock instant `now = (year, yearDay)`:
age is the year difference, minus one when the birthday has not yet
occurred this year (`now.YearDay() < birthDate.YearDay()`). -/
def isUnder13 (now birthDate : Int × Int) : Bool :=
  let age := now.1 - birthDate.1
  let age := if now.2 < birthDate.2 then age - 1 else age
  age < 13

/-- The fixed reserved-username list of
`authServiceImpl.isReservedUsername`. -/
def reservedUsernames : List String :=
  ["admin", "administrator", "root", "system", "api",
   "www", "mail", "ftp", "support", "help",
   "test", "demo", "guest", "user", "default"]

/-- `authServiceImpl.isReservedUsername`: `slices.Contains`, i.e. exact
string equality against each entry. -/
def isReservedUsername (username : String) : Bool :=
  reservedUsernames.contains username

/-- The birth-date gate at the head of `Register`: the under-13 check
runs only when `req.BirthDate != nil`. -/
def birthDateUnder13 (now : Int × Int) (birthDate : Option (Int × Int)) : Bool :=
  match birthDate with
  | some bd => isUnder13 now bd
  | none => false

/-- The user record `Register` hands to `userRepo.Create`: the request's
`Username`/`Email` demoted to `nil` when empty, then `model.CreateUser`. -/
def registerUser0 (req : RegisterRequest) : UserModel :=
  CreateUser req.name
    (if req.username = "" then none else some req.username)
    (if req.email = "" then none else some req.email)
    req.birthDate

/-- `authServiceImpl.Register` at clock `now` (for the age gate) and JWT
instants `nowA`/`nowR`: age gate, reserved-username gate, create the
user, hash the password (on failure delete the created user and return
the hash error — the delete's own result is only logged), create the
credentials (on failure likewise delete the created user and return the
error), then issue the token pair.  Returns the result together with the
ordered trace of store calls issued. -/
def AuthServiceImpl.Register (s : AuthServiceImpl) (now : Int × Int)
    (nowA nowR : Int) (req : RegisterRequest) :
    Except AppError TokenResponse × List RepoEvent :=
  if birthDateUnder13 now req.birthDate then
    (.error .userUnderAge, [])
  else if req.username ≠ "" && isReservedUsername req.username then
    (.error .validation, [])
  else
    let user0 := registerUser0 req
    match s.userRepo.create user0 with
    | .error e => (.error e, [.userCreate user0])
    | .ok user =>
      match s.hasher.hashPassword req.password with
      | .error e =>
        -- the delete is issued; its own failure is only logged
        (.error e, [.userCreate user0, .userDelete user.id])
      | .ok hashedPassword =>
        let credentials : UserCredentials :=
          { userID := user.id, password := hashedPassword }
        match s.authRepo.createCredentials credentials with
        | .error e =>
          (.error e, [.userCreate user0, .credCreate credentials, .userDelete user.id])
        | .ok _ =>
          (.ok (s.jwtMgr.GenerateToken nowA nowR user),
           [.userCreate user0, .credCreate credentials])

/-- The user lookup at the head of `authServiceImpl.Login`: by username
when one was supplied, else by email. -/
def loginFindUser (s : AuthServiceImpl) (req : LoginRequest) :
    Except AppError UserModel :=
  if req.username ≠ "" then s.userRepo.findByUsername req.username
  else s.userRepo.findByEmail req.email

/-- The store call `Login`'s user lookup issues. -/
def loginFindEvent (req : LoginRequest) : RepoEvent :=
  if req.username ≠ "" then .userFindByUsername req.username
  else .userFindByEmail req.email

/-- `authServiceImpl.Login` (continued): fold the lookup failure, the
credentials-lookup failure and the password-check failure all into
`apperrors.ErrUnauthorized`, so the three causes are indistinguishable
to the caller; reject an inactive user with `apperrors.ErrForbidden`
(checked only after the password); on success issue a fresh token pair
(both halves newly generated). -/
def AuthServiceImpl.Login (s : AuthServiceImpl) (nowA nowR : Int)
    (req : LoginRequest) : Except AppError TokenResponse × List RepoEvent :=
  let ev1 := [loginFindEvent req]
  match loginFindUser s req with
  | .error _ => (.error .unauthorized, ev1)
  | .ok user =>
    match s.authRepo.findByUserID user.id with
    | .error _ => (.error .unauthorized, ev1 ++ [.credFindByUserID user.id])
    | .ok credentials =>
      match s.hasher.checkPassword credentials.password req.password with
      | .error _ => (.error .unauthorized, ev1 ++ [.credFindByUserID user.id])
      | .ok _ =>
        if !user.isActive then
          (.error .forbidden, ev1 ++ [.credFindByUserID user.id])
        else
          (.ok (s.jwtMgr.GenerateToken nowA nowR user),
           ev1 ++ [.credFindByUserID user.id])

/-- `authServiceImpl.RefreshToken`: validate the supplied token
(propagating the expired/invalid distinction as-is), re-fetch the user by
the claim's `UserID` (`ErrUnauthorized` on failure), reject an inactive
user (`ErrForbidden`), then issue a brand-new token pair. -/
def AuthServiceImpl.RefreshToken (s : AuthServiceImpl) (now nowA nowR : Int)
    (refreshToken : Tok) : Except AppError TokenResponse × List RepoEvent :=
  match s.jwtMgr.ValidateToken now refreshToken with
  | .error e => (.error e, [])
  | .ok claims =>
    match s.userRepo.findByID claims.userID with
    | .error _ => (.error .unauthorized, [.userFindByID claims.userID])
    | .ok user =>
      if !user.isActive then (.error .forbidden, [.userFindByID claims.userID])
      else (.ok (s.jwtMgr.GenerateToken nowA nowR user), [.userFindByID claims.userID])

/-- `authServiceImpl.RefreshAccessToken`: same checks as `RefreshToken`
but only a new access token is generated (at instant `nowA`); the
refresh token is left untouched. -/
def AuthServiceImpl.RefreshAccessToken (s : AuthServiceImpl) (now nowA : Int)
    (refreshToken : Tok) : Except AppError Tok × List RepoEvent :=
  match s.jwtMgr.ValidateToken now refreshToken with
  | .error e => (.error e, [])
  | .ok claims =>
    match s.userRepo.findByID claims.userID with
    | .error _ => (.error .unauthorized, [.userFindByID claims.userID])
    | .ok user =>
      if !user.isActive then (.error .forbidden, [.userFindByID claims.userID])
      else (.ok (s.jwtMgr.GenerateAccessToken nowA user), [.userFindByID claims.userID])

/-- `authServiceImpl.ValidateToken`: a thin pass-through to
`JWTManager.ValidateToken`. -/
def AuthServiceImpl.ValidateToken (s : AuthServiceImpl) (now : Int)
    (tokenString : Tok) : Except AppError Claims :=
  s.jwtMgr.ValidateToken now tokenString

/-- Splitting at the first occurrence of a space:
`strings.SplitN(s, " ", 2)` on the character list. -/
def splitFirstSpace : List Char → Option (List Char × List Char)
  | [] => none
  | c :: rest =>
    if c = ' ' then some ([], rest)
    else
      match splitFirstSpace rest with
      | none => none
      | some (a, b) => some (c :: a, b)

/-- `strings.SplitN(s, " ", 2)`: one piece when `s` has no space, else
the text before the first space and everything after it. -/
def splitN2 (s : String) : List String :=
  match splitFirstSpace s.toList with
  | none => [s]
  | some (a, b) => [String.mk a, String.mk b]

example : splitN2 "Bearer abc" = ["Bearer", "abc"] := by rfl
example : splitN2 "Bearer a b" = ["Bearer", "a b"] := by rfl
example : splitN2 "" = [""] := by rfl
example : splitN2 "tokenonly" = ["tokenonly"] := by rfl

/-- The `service.AuthService` interface as the middleware consumes it:
token strings in, claims or a typed error out.  The middleware treats
tokens as opaque strings, so the oracle is indexed by `String`. -/
structure AuthSvc where
  validateToken : String → Except AppError Claims
  refreshAccessToken : String → Except AppError String

/-- The parts of a `gin.Context` request the auth middleware reads:
`c.GetHeader("Authorization")` (the empty string when the header is
absent, as in gin) and `c.Cookie("gin_api_refresh_token")` (`none` when
the cookie is absent, in which case `c.Cookie` returns an error). -/
structure GinRequest where
  authHeader : String
  refreshCookie : Option String
  deriving DecidableEq, Repr

/-- The request-scoped mutations the middleware can make: the two
context keys (`user_id`, `user_role`) and the two response headers
(`X-New-Access-Token`, `X-Token-Type`). -/
structure GateState where
  ctxUserID : Option String := none
  ctxUserRole : Option UserRole := none
  hdrNewAccessToken : Option String := none
  hdrTokenType : Option String := none
  deriving DecidableEq, Repr

/-- One call the middleware makes on the auth service. -/
inductive SvcCall where
  | validateToken (tok : String)
  | refreshAccessToken (tok : String)
  deriving DecidableEq, Repr

/-- The outcome of running the gate on one request: `aborted = some e`
when `handleAuthError` was reached with sentinel `e` (the request is
aborted), `none` when the chain continued; plus the final context/header
state and the ordered auth-service calls issued. -/
structure GateResult where
  aborted : Option AppError
  state : GateState
  calls : List SvcCall
  deriving DecidableEq, Repr

/-- `AuthMiddleware.tryAutoRefresh`: read the refresh cookie (absent →
`false`); call `RefreshAccessToken` (failure → `false`); set the
`X-New-Access-Token`/`X-Token-Type` response headers; re-validate the new
access token (failure → `false`, with the headers already set); on
success set `user_id`/`user_role` and report `true`. -/
def tryAutoRefresh (svc : AuthSvc) (req : GinRequest) (st : GateState) :
    Bool × GateState × List SvcCall :=
  match req.refreshCookie with
  | none => (false, st, [])
  | some refreshToken =>
    match svc.refreshAccessToken refreshToken with
    | .error _ => (false, st, [.refreshAccessToken refreshToken])
    | .ok newAccessToken =>
      let st := { st with hdrNewAccessToken := some newAccessToken,
                          hdrTokenType := some "Bearer" }
      match svc.validateToken newAccessToken with
      | .error _ =>
        (false, st, [.refreshAccessToken refreshToken, .validateToken newAccessToken])
      | .ok claims =>
        (true,
         { st with ctxUserID := some claims.userID, ctxUserRole := some claims.role },
         [.refreshAccessToken refreshToken, .validateToken newAccessToken])

/-- `AuthMiddleware.RequireAuth`: missing header → unauthorized; header
not exactly `Bearer <token>` (two `SplitN` parts with scheme `Bearer`) →
unauthorized; validate the token; on `ErrExpiredToken` (and only then)
attempt `tryAutoRefresh`, rejecting with the original expired error when
it reports failure; on any other validation error reject with that
error; on success attach `user_id`/`user_role` and continue. -/
def requireAuth (svc : AuthSvc) (req : GinRequest) : GateResult :=
  if req.authHeader = "" then
    { aborted := some .unauthorized, state := {}, calls := [] }
  else
    match splitN2 req.authHeader with
    | [scheme, token] =>
      if scheme ≠ "Bearer" then
        { aborted := some .unauthorized, state := {}, calls := [] }
      else
        match svc.validateToken token with
        | .error e =>
          if e = .expiredToken then
            match tryAutoRefresh svc req {} with
            | (true, st, calls) =>
              { aborted := none, state := st, calls := .validateToken token :: calls }
            | (false, st, calls) =>
              { aborted := some e, state := st, calls := .validateToken token :: calls }
          else
            { aborted := some e, state := {}, calls := [.validateToken token] }
        | .ok claims =>
          { aborted := none,
            state := { ctxUserID := some claims.userID,
                       ctxUserRole := some claims.role },
            calls := [.validateToken token] }
    | _ => { aborted := some .unauthorized, state := {}, calls := [] }

/-- A value stored in the gin context under `user_id` / `user_role`: the
context holds `any`, and the RBAC middleware's type assertions
(`.(string)`, `.(model.UserRole)`) succeed only on the matching
alternative. -/
inductive CtxVal where
  | str (s : String)
  | userRole (r : UserRole)
  deriving DecidableEq, Repr

/-- What `RBACMiddleware.RequireOwnershipOrAdmin` reads from the
context: the `:id` route parameter and the two context keys (absent when
never set). -/
structure RBACCtx where
  paramID : String
  userID : Option CtxVal
  userRole : Option CtxVal
  deriving DecidableEq, Repr

/-- Terminal outcome of an RBAC gate on one request. -/
inductive RBACOutcome where
  | allowed
  | rejected (e : AppError)
  deriving DecidableEq, Repr

/-- `RBACMiddleware.RequireOwnershipOrAdmin`: missing `user_id`, a
`user_id` that is not a string, missing `user_role`, or a `user_role`
that is not a `model.UserRole` → unauthorized; then allow iff the role
is admin or the caller's id equals the `:id` route parameter; otherwise
forbidden. -/
def requireOwnershipOrAdmin (c : RBACCtx) : RBACOutcome :=
  match c.userID with
  | none => .rejected .unauthorized
  | some v =>
    match v with
    | .userRole _ => .rejected .unauthorized
    | .str userIDStr =>
      match c.userRole with
      | none => .rejected .unauthorized
      | some rv =>
        match rv with
        | .str _ => .rejected .unauthorized
        | .userRole userRole =>
          if userRole.IsAdmin || userIDStr == c.paramID then .allowed
          else .rejected .forbidden

/-! ## Shared concrete fixtures (for witnesses and counterexamples) -/

/-- A `JWTManager` with a 15-minute (900 s) access lifetime, as in the
repository's tests. -/
def jMgr900 : JWTManager := { secretKey := "test-secret", tokenDuration := 900 }

/-- A concrete active regular user. -/
def userU1 : UserModel :=
  { id := "user-123", name := "Test User", username := some "testuser",
    email := some "test@example.com", birthDate := none, isActive := true,
    role := "user" }

/-- A concrete user whose identity role is `admin`. -/
def adminUser : UserModel :=
  { id := "user-123", name := "Admin User", username := some "adminu",
    email := none, birthDate := none, isActive := true, role := "admin" }

/-- A concrete happy-path user repository oracle. -/
def userRepoEx : UserRepository :=
  { create := fun u => .ok { u with id := "user-123" },
    delete := fun _ => .ok (),
    findByID := fun _ => .ok userU1,
    findByUsername := fun _ => .ok userU1,
    findByEmail := fun _ => .ok userU1 }

/-- A concrete happy-path auth repository oracle. -/
def authRepoEx : AuthRepository :=
  { createCredentials := fun c => .ok c,
    findByUserID := fun uid => .ok { userID := uid, password := "hashed:secret123" } }

/-- A concrete happy-path password-hasher oracle. -/
def hasherEx : PasswordHasher :=
  { hashPassword := fun p => .ok ("hashed:" ++ p),
    checkPassword := fun _ _ => .ok () }

/-- A concrete auth service over the happy-path oracles. -/
def svcEx : AuthServiceImpl :=
  { userRepo := userRepoEx, authRepo := authRepoEx, hasher := hasherEx,
    jwtMgr := jMgr900 }

/-! ## C2 — failure kinds of `JWTManager.ValidateToken` -/

/-- C2: `ValidateToken` fails with `ErrExpiredToken` exactly on a token
that is structurally well-formed, carries an HMAC-family algorithm, has
a valid signature under the manager's secret, and whose expiry has
passed (`exp ≤ now`, golang-jwt v5's `!now.Before(exp)`); a tampered
signature, a malformed string (the empty input among them) or a
non-HMAC algorithm always yields `ErrInvalidToken`, never
`ErrExpiredToken`. -/
theorem validateToken_failure_kinds (j : JWTManager) (now : Int) :
    (∀ tok : Tok, j.ValidateToken now tok = .error .expiredToken ↔
      ∃ alg c, alg.isHMAC = true ∧ tok = .signed alg c (hmacSign j.secretKey alg c)
        ∧ c.expiresAt ≤ now)
    ∧ (∀ alg c sig, sig ≠ hmacSign j.secretKey alg c →
        j.ValidateToken now (.signed alg c sig) = .error .invalidToken)
    ∧ (∀ raw, j.ValidateToken now (.malformed raw) = .error .invalidToken)
    ∧ (∀ alg c sig, alg.isHMAC = false →
        j.ValidateToken now (.signed alg c sig) = .error .invalidToken) := by
  refine ⟨?_, ?_, ?_, ?_⟩
  · intro tok
    constructor
    · intro h
      match tok with
      | .malformed raw =>
        simp [JWTManager.ValidateToken, parseWithClaims, ParseErr.isExpired] at h
      | .signed alg c sig =>
        by_cases hA : alg.isHMAC
        · by_cases hS : sig = hmacSign j.secretKey alg c
          · by_cases hE : c.expiresAt ≤ now
            · exact ⟨alg, c, hA, by rw [hS], hE⟩
            · by_cases hN : now < c.notBefore <;>
                simp [JWTManager.ValidateToken, parseWithClaims, ParseErr.isExpired,
                  hA, hS, hE, hN] at h
          · simp [JWTManager.ValidateToken, parseWithClaims, ParseErr.isExpired,
              hA, hS] at h
        · simp [JWTManager.ValidateToken, parseWithClaims, ParseErr.isExpired,
            Bool.eq_false_iff.mpr hA] at h
    · rintro ⟨alg, c, hA, rfl, hE⟩
      simp [JWTManager.ValidateToken, parseWithClaims, ParseErr.isExpired, hA, hE]
  · intro alg c sig hne
    by_cases hA : alg.isHMAC
    · simp [JWTManager.ValidateToken, parseWithClaims, ParseErr.isExpired, hA, hne]
    · simp only [Bool.not_eq_true] at hA
      simp [JWTManager.ValidateToken, parseWithClaims, ParseErr.isExpired, hA]
  · intro raw
    simp [JWTManager.ValidateToken, parseWithClaims, ParseErr.isExpired]
  · intro alg c sig hA
    simp [JWTManager.ValidateToken, parseWithClaims, ParseErr.isExpired, hA]

/-- Witness for C2 at a concrete manager and time: an expired,
well-signed access token maps to `ErrExpiredToken`, and the same claims
with a tampered signature map to `ErrInvalidToken`. -/
theorem validateToken_failure_kinds_witness :
    jMgr900.ValidateToken 1000
        (.signed .hs256
          { userID := "u", role := "", expiresAt := 900, issuedAt := 0,
            notBefore := 0, issuer := "go-gin-api-server", subject := "u" }
          (hmacSign "wrong-secret" .hs256
            { userID := "u", role := "", expiresAt := 900, issuedAt := 0,
              notBefore := 0, issuer := "go-gin-api-server", subject := "u" }))
      = .error .invalidToken :=
  (validateToken_failure_kinds jMgr900 1000).2.1 .hs256 _ _ (by decide)

/-! ## C4 — expiry arithmetic of `JWTManager.GenerateToken` -/

/-- C4 counterexample: with a 900-second access lifetime and the clock
at 0, the refresh token's expiry is `900 * 24 * 7 = 151200`, not
`now + 7 × d = 6300`: the code multiplies the access lifetime by
`24 * 7`, not by `7`. -/
theorem generateToken_refresh_expiry_not_7x :
    ((jMgr900.GenerateToken 0 0 userU1).refreshToken.claims?.map (·.expiresAt))
        = some 151200
    ∧ ((jMgr900.GenerateToken 0 0 userU1).accessToken.claims?.map (·.expiresAt))
        = some 900
    ∧ (151200 : Int) ≠ 0 + 7 * 900 := by
  exact ⟨rfl, rfl, by decide⟩

/-- C4 as amended: access expiry is `nowA + d` and refresh expiry is
`nowR + d*24*7` (the code's "7 days" comment: 7 × 24 access lifetimes),
and with a positive lifetime and the refresh instant not before the
access instant (`GenerateToken` reads the clock twice, in that order)
the refresh expiry is strictly later than the access expiry. -/
theorem generateToken_expiries (j : JWTManager) (nowA nowR : Int) (u : UserModel)
    (hd : 0 < j.tokenDuration) (hle : nowA ≤ nowR) :
    ((j.GenerateToken nowA nowR u).accessToken.claims?.map (·.expiresAt))
        = some (nowA + j.tokenDuration)
    ∧ ((j.GenerateToken nowA nowR u).refreshToken.claims?.map (·.expiresAt))
        = some (nowR + j.tokenDuration * 24 * 7)
    ∧ nowA + j.tokenDuration < nowR + j.tokenDuration * 24 * 7 := by
  refine ⟨rfl, rfl, ?_⟩
  nlinarith [hd, hle]

/-- Witness for C4's amended statement at a concrete manager, clock and
user. -/
theorem generateToken_expiries_witness :
    ((jMgr900.GenerateToken 5 7 userU1).accessToken.claims?.map (·.expiresAt))
        = some 905
    ∧ ((jMgr900.GenerateToken 5 7 userU1).refreshToken.claims?.map (·.expiresAt))
        = some 151207
    ∧ (905 : Int) < 151207 :=
  generateToken_expiries jMgr900 5 7 userU1 (by decide) (by decide)

/-! ## C5 — subject round-trips, but the identity's role does not -/

/-- C5: verifying the access token issued for an identity whose role is
`admin` returns claims whose `Subject` and `UserID` equal the identity's
id, as claimed — but whose role is the zero value `""`, not the
identity's role: neither `GenerateAccessToken` nor `GenerateToken` ever
assigns the `Role` field of `model.Claims`, even though the auth
middleware copies `claims.Role` into the context and the RBAC admin
checks read it from there. -/
theorem validate_issue_roundtrip_loses_role :
    jMgr900.ValidateToken 10 (jMgr900.GenerateAccessToken 0 adminUser)
        = .ok { userID := "user-123", role := "", expiresAt := 900, issuedAt := 0,
                notBefore := 0, issuer := "go-gin-api-server", subject := "user-123" }
    ∧ adminUser.id = "user-123"
    ∧ adminUser.role = "admin"
    ∧ ("" : UserRole) ≠ adminUser.role := by
  exact ⟨rfl, rfl, rfl, by decide⟩

/-! ## C6 — refresh tokens are accepted by `validate` -/

/-- C6 counterexample: the refresh token issued for a concrete user is
*accepted* by the service's `ValidateToken` (the thin pass-through the
Request Gate uses for resource access), returning its claims — it is
not rejected, because access and refresh tokens are structurally
identical and carry no purpose discriminant. -/
theorem validate_accepts_refresh_token :
    svcEx.ValidateToken 10 ((jMgr900.GenerateToken 0 0 userU1).refreshToken)
      = .ok { userID := "user-123", role := "", expiresAt := 151200, issuedAt := 0,
              notBefore := 0, issuer := "go-gin-api-server", subject := "user-123" } := by
  rfl

/-- C6 as amended: the refresh token produced by `GenerateToken` is
accepted by the renewal operation (`RefreshAccessToken`, when the user
still exists and is active) *and equally by the resource-access
validation operation* (`ValidateToken`), whenever the validation instant
lies inside the refresh token's validity window: the two token kinds are
interchangeable at validation and distinguished only by caller
discipline. -/
theorem refresh_token_accepted_by_validate (s : AuthServiceImpl)
    (nowA nowR t tGen : Int) (u user' : UserModel)
    (h1 : nowR ≤ t) (h2 : t < nowR + s.jwtMgr.tokenDuration * 24 * 7)
    (hfind : s.userRepo.findByID u.id = .ok user')
    (hact : user'.isActive = true) :
    s.ValidateToken t ((s.jwtMgr.GenerateToken nowA nowR u).refreshToken)
        = .ok { userID := u.id, role := "",
                expiresAt := nowR + s.jwtMgr.tokenDuration * 24 * 7,
                issuedAt := nowR, notBefore := nowR,
                issuer := "go-gin-api-server", subject := u.id }
    ∧ (s.RefreshAccessToken t tGen
          ((s.jwtMgr.GenerateToken nowA nowR u).refreshToken)).fst
        = .ok (s.jwtMgr.GenerateAccessToken tGen user') := by
  have hE : ¬(nowR + s.jwtMgr.tokenDuration * 24 * 7 ≤ t) := not_le.mpr h2
  have hN : ¬(t < nowR) := not_lt.mpr h1
  have hval : s.jwtMgr.ValidateToken t ((s.jwtMgr.GenerateToken nowA nowR u).refreshToken)
      = .ok { userID := u.id, role := "",
              expiresAt := nowR + s.jwtMgr.tokenDuration * 24 * 7,
              issuedAt := nowR, notBefore := nowR,
              issuer := "go-gin-api-server", subject := u.id } := by
    simp [JWTManager.GenerateToken, JWTManager.ValidateToken, parseWithClaims,
      Alg.isHMAC, hE, hN, ParseErr.isExpired]
  refine ⟨hval, ?_⟩
  simp [AuthServiceImpl.RefreshAccessToken, hval, hfind, hact]

/-- Witness for C6's amended statement at a concrete service, user and
instants. -/
theorem refresh_token_accepted_by_validate_witness :
    svcEx.ValidateToken 10 ((jMgr900.GenerateToken 0 0 userU1).refreshToken)
        = .ok { userID := "user-123", role := "", expiresAt := 151200, issuedAt := 0,
                notBefore := 0, issuer := "go-gin-api-server", subject := "user-123" }
    ∧ (svcEx.RefreshAccessToken 10 10
          ((jMgr900.GenerateToken 0 0 userU1).refreshToken)).fst
        = .ok (jMgr900.GenerateAccessToken 10 userU1) := by
  have h := refresh_token_accepted_by_validate svcEx 0 0 10 10 userU1 userU1
    (by decide) (by decide) (by rfl) (by rfl)
  exact h

/-! ## C1 — registration compensates a partial failure -/

/-- C1: whenever the two validation gates pass, the Identity store's
create succeeds (returning `user`), and then either password hashing or
credential creation fails with `e`, `Register` returns `.error e` and
its store-call trace is the create of the request's user record followed
(possibly after the failed credential create) by a delete with exactly
the created user's id — the compensation is issued before the error is
returned, so no orphan Identity survives the failed registration. -/
theorem register_compensates_on_partial_failure (s : AuthServiceImpl)
    (now : Int × Int) (nowA nowR : Int) (req : RegisterRequest)
    (user : UserModel) (e : AppError)
    (hAge : birthDateUnder13 now req.birthDate = false)
    (hRes : (req.username ≠ "" && isReservedUsername req.username) = false)
    (hCreate : s.userRepo.create (registerUser0 req) = .ok user)
    (hFail : s.hasher.hashPassword req.password = .error e ∨
      ∃ hp, s.hasher.hashPassword req.password = .ok hp ∧
        s.authRepo.createCredentials { userID := user.id, password := hp }
          = .error e) :
    (s.Register now nowA nowR req).fst = .error e
    ∧ ∃ mid, (s.Register now nowA nowR req).snd
        = .userCreate (registerUser0 req) :: mid ++ [.userDelete user.id] := by
  have hRes2 : ¬req.username = "" → isReservedUsername req.username = false := by
    simpa using hRes
  have hcond : ¬(¬req.username = "" ∧ isReservedUsername req.username = true) := by
    intro hc
    have := hRes2 hc.1
    simp [this] at hc
  rcases hFail with hHash | ⟨hp, hHash, hCred⟩
  · constructor
    · simp [AuthServiceImpl.Register, hAge, hcond, hCreate, hHash]
    · exact ⟨[], by simp [AuthServiceImpl.Register, hAge, hcond, hCreate, hHash]⟩
  · constructor
    · simp [AuthServiceImpl.Register, hAge, hcond, hCreate, hHash, hCred]
    · exact ⟨[.credCreate { userID := user.id, password := hp }],
        by simp [AuthServiceImpl.Register, hAge, hcond, hCreate, hHash, hCred]⟩

/-- A hasher oracle whose hashing always fails (for the C1 witness). -/
def hasherFail : PasswordHasher :=
  { hashPassword := fun _ => .error .validation,
    checkPassword := fun _ _ => .ok () }

/-- A service whose password hashing fails after user creation
succeeds. -/
def svcHashFail : AuthServiceImpl :=
  { userRepo := userRepoEx, authRepo := authRepoEx, hasher := hasherFail,
    jwtMgr := jMgr900 }

/-- A concrete well-formed registration request. -/
def reqAnn : RegisterRequest :=
  { name := "Ann Smith", birthDate := some (2000, 1), username := "ann",
    email := "ann@example.com", password := "secret123" }

/-- Witness for C1: registering `reqAnn` at a service whose hashing
fails yields the hash error, with the trace create-then-delete of
`user-123`. -/
theorem register_compensates_on_partial_failure_witness :
    (svcHashFail.Register (2026, 100) 0 0 reqAnn).fst = .error .validation
    ∧ ∃ mid, (svcHashFail.Register (2026, 100) 0 0 reqAnn).snd
        = .userCreate (registerUser0 reqAnn) :: mid ++ [.userDelete "user-123"] :=
  register_compensates_on_partial_failure svcHashFail (2026, 100) 0 0 reqAnn
    { registerUser0 reqAnn with id := "user-123" } .validation
    (by decide) (by decide) (by rfl) (.inl (by rfl))

/-! ## C7 — login failure folding -/

/-- C7: the three login failure causes — user lookup failed, credential
lookup failed, password check failed — return the *same* value,
`.error .unauthorized`, so the caller cannot tell which half failed;
an inactive identity (reached only after the password check passes)
fails with `.error .forbidden`; and on success a fresh token bundle is
returned, both halves newly generated by `GenerateToken`. -/
theorem login_failure_folding (s : AuthServiceImpl) (nowA nowR : Int)
    (req : LoginRequest) :
    (∀ e, loginFindUser s req = .error e →
      (s.Login nowA nowR req).fst = .error .unauthorized)
    ∧ (∀ user e, loginFindUser s req = .ok user →
        s.authRepo.findByUserID user.id = .error e →
        (s.Login nowA nowR req).fst = .error .unauthorized)
    ∧ (∀ user credentials e, loginFindUser s req = .ok user →
        s.authRepo.findByUserID user.id = .ok credentials →
        s.hasher.checkPassword credentials.password req.password = .error e →
        (s.Login nowA nowR req).fst = .error .unauthorized)
    ∧ (∀ user credentials, loginFindUser s req = .ok user →
        s.authRepo.findByUserID user.id = .ok credentials →
        s.hasher.checkPassword credentials.password req.password = .ok () →
        user.isActive = false →
        (s.Login nowA nowR req).fst = .error .forbidden)
    ∧ (∀ user credentials, loginFindUser s req = .ok user →
        s.authRepo.findByUserID user.id = .ok credentials →
        s.hasher.checkPassword credentials.password req.password = .ok () →
        user.isActive = true →
        (s.Login nowA nowR req).fst
          = .ok (s.jwtMgr.GenerateToken nowA nowR user)) := by
  refine ⟨?_, ?_, ?_, ?_, ?_⟩
  · intro e hFind
    simp [AuthServiceImpl.Login, hFind]
  · intro user e hFind hCred
    simp [AuthServiceImpl.Login, hFind, hCred]
  · intro user credentials e hFind hCred hPw
    simp [AuthServiceImpl.Login, hFind, hCred, hPw]
  · intro user credentials hFind hCred hPw hInactive
    simp [AuthServiceImpl.Login, hFind, hCred, hPw, hInactive]
  · intro user credentials hFind hCred hPw hActive
    simp [AuthServiceImpl.Login, hFind, hCred, hPw, hActive]

/-- A user repository oracle whose every lookup fails (for the C7
witness). -/
def userRepoNotFound : UserRepository :=
  { create := fun u => .ok u,
    delete := fun _ => .ok (),
    findByID := fun _ => .error .notFound,
    findByUsername := fun _ => .error .notFound,
    findByEmail := fun _ => .error .notFound }

/-- A service at which the login user lookup fails. -/
def svcNoUser : AuthServiceImpl :=
  { userRepo := userRepoNotFound, authRepo := authRepoEx, hasher := hasherEx,
    jwtMgr := jMgr900 }

/-- Witness for C7: at a service whose user lookup reports not-found,
login returns the folded unauthorized error. -/
theorem login_failure_folding_witness :
    (svcNoUser.Login 0 0 { username := "ann", email := "", password := "pw123456" }).fst
      = .error .unauthorized :=
  (login_failure_folding svcNoUser 0 0
      { username := "ann", email := "", password := "pw123456" }).1
    .notFound (by rfl)

/-! ## C8 — validation gates fire before any store call -/

/-- C8 counterexample: a request that is both under-age and carries the
reserved username `admin` fails with the under-age error, not the
validation error — the age gate runs first, so the claim's "every
request whose username is reserved fails with the validation error" is
false as stated. -/
theorem register_under_age_wins_over_reserved :
    isReservedUsername
        ({ name := "Bob Jones", birthDate := some (2020, 50), username := "admin",
           email := "", password := "secret123" } : RegisterRequest).username = true
    ∧ (svcEx.Register (2026, 100) 0 0
        { name := "Bob Jones", birthDate := some (2020, 50), username := "admin",
          email := "", password := "secret123" }).fst = .error .userUnderAge
    ∧ AppError.userUnderAge ≠ AppError.validation := by
  exact ⟨rfl, rfl, by decide⟩

/-- C8 as amended: a registration whose birth date yields age < 13 fails
with the under-age error and issues no store call at all; a registration
whose username is in the reserved set *and whose birth date does not
trip the age gate* (which runs first) fails with the validation error,
likewise issuing no store call — in both cases the Identity store's
create is never invoked. -/
theorem register_gates_block_all_store_calls (s : AuthServiceImpl)
    (now : Int × Int) (nowA nowR : Int) (req : RegisterRequest) :
    (birthDateUnder13 now req.birthDate = true →
      s.Register now nowA nowR req = (.error .userUnderAge, []))
    ∧ (birthDateUnder13 now req.birthDate = false →
        isReservedUsername req.username = true →
        s.Register now nowA nowR req = (.error .validation, [])) := by
  constructor
  · intro hAge
    simp [AuthServiceImpl.Register, hAge]
  · intro hAge hRes
    have hne : ¬req.username = "" := by
      intro h
      rw [h] at hRes
      exact absurd hRes (by decide)
    simp [AuthServiceImpl.Register, hAge, hne, hRes]

/-- Witness for C8's amended statement: an under-age request returns the
under-age error with an empty store trace, and a reserved-username
request of age ≥ 13 returns the validation error with an empty store
trace. -/
theorem register_gates_block_all_store_calls_witness :
    svcEx.Register (2026, 100) 0 0
        { name := "Bob Jones", birthDate := some (2020, 50), username := "bobby",
          email := "", password := "secret123" }
      = (.error .userUnderAge, [])
    ∧ svcEx.Register (2026, 100) 0 0
        { name := "Cam Jones", birthDate := some (2000, 50), username := "admin",
          email := "", password := "secret123" }
      = (.error .validation, []) :=
  ⟨(register_gates_block_all_store_calls svcEx (2026, 100) 0 0
      { name := "Bob Jones", birthDate := some (2020, 50), username := "bobby",
        email := "", password := "secret123" }).1 (by decide),
   (register_gates_block_all_store_calls svcEx (2026, 100) 0 0
      { name := "Cam Jones", birthDate := some (2000, 50), username := "admin",
        email := "", password := "secret123" }).2 (by decide) (by decide)⟩

/-! ## C9 — the owner-or-admin policy -/

/-- C9: `RequireOwnershipOrAdmin` allows the request iff the context
carries a string `user_id` and a `UserRole` `user_role` such that the
role is admin or the id equals the `:id` route parameter; a missing
`user_id` or `user_role` rejects with unauthorized; both present (and
well-typed) with neither the admin nor the ownership check passing
rejects with forbidden. -/
theorem ownershipOrAdmin_policy (c : RBACCtx) :
    (requireOwnershipOrAdmin c = .allowed ↔
      ∃ uid r, c.userID = some (.str uid) ∧ c.userRole = some (.userRole r)
        ∧ (r.IsAdmin = true ∨ uid = c.paramID))
    ∧ (c.userID = none → requireOwnershipOrAdmin c = .rejected .unauthorized)
    ∧ (c.userRole = none → requireOwnershipOrAdmin c = .rejected .unauthorized)
    ∧ (∀ uid r, c.userID = some (.str uid) → c.userRole = some (.userRole r) →
        r.IsAdmin = false → uid ≠ c.paramID →
        requireOwnershipOrAdmin c = .rejected .forbidden) := by
  obtain ⟨pid, uidv, rolev⟩ := c
  refine ⟨?_, ?_, ?_, ?_⟩
  · match uidv, rolev with
    | none, _ => simp [requireOwnershipOrAdmin]
    | some (.userRole r), _ => simp [requireOwnershipOrAdmin]
    | some (.str uid), none => simp [requireOwnershipOrAdmin]
    | some (.str uid), some (.str s) => simp [requireOwnershipOrAdmin]
    | some (.str uid), some (.userRole r) =>
      by_cases hcond : (r.IsAdmin || uid == pid) = true
      · have hallow : requireOwnershipOrAdmin
            ⟨pid, some (.str uid), some (.userRole r)⟩ = .allowed := by
          simp [requireOwnershipOrAdmin, hcond]
        rw [hallow]
        simp only [Bool.or_eq_true, beq_iff_eq] at hcond
        exact iff_of_true rfl ⟨uid, r, rfl, rfl, hcond⟩
      · have hforb : requireOwnershipOrAdmin
            ⟨pid, some (.str uid), some (.userRole r)⟩ = .rejected .forbidden := by
          simp [requireOwnershipOrAdmin, hcond]
        rw [hforb]
        constructor
        · intro h
          exact RBACOutcome.noConfusion h
        · rintro ⟨uid', r', h1, h2, h3⟩
          rw [Option.some.injEq, CtxVal.str.injEq] at h1
          rw [Option.some.injEq, CtxVal.userRole.injEq] at h2
          subst h1
          subst h2
          apply absurd _ hcond
          rcases h3 with h3 | h3
          · simp [h3]
          · simp [h3]
  · intro h
    subst h
    simp [requireOwnershipOrAdmin]
  · intro h
    subst h
    match uidv with
    | none => simp [requireOwnershipOrAdmin]
    | some (.str uid) => simp [requireOwnershipOrAdmin]
    | some (.userRole r) => simp [requireOwnershipOrAdmin]
  · intro uid r huid hrole hadm hown
    subst huid
    subst hrole
    simp [requireOwnershipOrAdmin, hadm, hown]

/-- Witness for C9: a non-admin caller `U2` targeting `U1`'s resource is
rejected with forbidden. -/
theorem ownershipOrAdmin_policy_witness :
    requireOwnershipOrAdmin
        { paramID := "U1", userID := some (.str "U2"),
          userRole := some (.userRole "user") }
      = .rejected .forbidden :=
  (ownershipOrAdmin_policy
      { paramID := "U1", userID := some (.str "U2"),
        userRole := some (.userRole "user") }).2.2.2
    "U2" "user" rfl rfl (by decide) (by decide)

/-! ## C10 — the reserved-username check is case-sensitive -/

/-- Character-wise lowercasing (structurally recursive, unlike
`String.toLower`, so concrete instances evaluate in the kernel); used
only to state C10's "differs only in letter case". -/
def lowerStr (s : String) : String :=
  String.mk (s.data.map Char.toLower)

/-- Every entry of the reserved list is its own lowercasing (the list is
all-lowercase). -/
theorem reservedUsernames_all_lower :
    ∀ x ∈ reservedUsernames, lowerStr x = x := by
  decide

/-- C10: the reserved list has exactly 15 entries and is compared by
exact string equality, so any username that differs from a reserved
entry only in letter case (equal lowercasings, not equal strings) is
*not* reserved, and `Register` with such a username (age gate not
tripped) proceeds to invoke the Identity store's create as its first
store call. -/
theorem reserved_check_case_sensitive (u r : String)
    (hr : r ∈ reservedUsernames) (hne : u ≠ r) (hcase : lowerStr u = lowerStr r) :
    reservedUsernames.length = 15
    ∧ isReservedUsername u = false
    ∧ ∀ (s : AuthServiceImpl) (now : Int × Int) (nowA nowR : Int)
        (req : RegisterRequest),
        req.username = u →
        birthDateUnder13 now req.birthDate = false →
        (s.Register now nowA nowR req).snd.head?
          = some (.userCreate (registerUser0 req)) := by
  have hrl : lowerStr r = r := reservedUsernames_all_lower r hr
  have hres : isReservedUsername u = false := by
    cases hu : isReservedUsername u with
    | false => rfl
    | true =>
      have hu' : u ∈ reservedUsernames := by
        simpa [isReservedUsername] using hu
      have hul : lowerStr u = u := reservedUsernames_all_lower u hu'
      exact absurd (hul.symm.trans (hcase.trans hrl)) hne
  refine ⟨by decide, hres, ?_⟩
  intro s now nowA nowR req hreq hAge
  have hcond : ¬(¬req.username = "" ∧ isReservedUsername req.username = true) := by
    intro hc
    rw [hreq, hres] at hc
    exact Bool.false_ne_true hc.2
  rcases hc : s.userRepo.create (registerUser0 req) with e | user
  · simp [AuthServiceImpl.Register, hAge, hcond, hc]
  · rcases hh : s.hasher.hashPassword req.password with e | hp
    · simp [AuthServiceImpl.Register, hAge, hcond, hc, hh]
    · rcases hcc : s.authRepo.createCredentials { userID := user.id, password := hp }
        with e | cr
      · simp [AuthServiceImpl.Register, hAge, hcond, hc, hh, hcc]
      · simp [AuthServiceImpl.Register, hAge, hcond, hc, hh, hcc]

/-- Witness for C10 at `"Admin"` vs the reserved `"admin"`: not
reserved, and a registration with username `"Admin"` reaches the
Identity store's create. -/
theorem reserved_check_case_sensitive_witness :
    isReservedUsername "Admin" = false
    ∧ (svcEx.Register (2026, 100) 0 0
        { name := "Ada Admin", birthDate := none, username := "Admin",
          email := "", password := "secret123" }).snd.head?
      = some (.userCreate (registerUser0
          { name := "Ada Admin", birthDate := none, username := "Admin",
            email := "", password := "secret123" })) :=
  ⟨(reserved_check_case_sensitive "Admin" "admin" (by decide) (by decide)
      (by decide)).2.1,
   (reserved_check_case_sensitive "Admin" "admin" (by decide) (by decide)
      (by decide)).2.2 svcEx (2026, 100) 0 0 _ rfl rfl⟩

/-! ## C3 — the Request Gate's single local recovery -/

/-- C3: for a request whose Authorization header parses to
`Bearer <tok>`, the gate recovers exactly one failure locally.  When
`validateToken` fails with the expired kind: no refresh cookie → it
aborts with the expired error; refresh cookie present but
`refreshAccessToken` fails with any error `e` → it still aborts with the
*original* expired error (the renewal failure is never surfaced);
renewal and re-validation succeed → it continues the request with
`user_id`/`user_role` attached and the new access token plus the
`Bearer` token-type attached to the response headers.  When
`validateToken` fails with the invalid kind it aborts with the invalid
error and, as the call trace shows, never attempts renewal. -/
theorem requireAuth_expired_recovery (svc : AuthSvc) (req : GinRequest)
    (tok : String)
    (hsplit : splitN2 req.authHeader = ["Bearer", tok]) :
    (svc.validateToken tok = .error .expiredToken →
      req.refreshCookie = none →
      requireAuth svc req
        = { aborted := some .expiredToken, state := {},
            calls := [.validateToken tok] })
    ∧ (∀ rt e, svc.validateToken tok = .error .expiredToken →
        req.refreshCookie = some rt →
        svc.refreshAccessToken rt = .error e →
        requireAuth svc req
          = { aborted := some .expiredToken, state := {},
              calls := [.validateToken tok, .refreshAccessToken rt] })
    ∧ (∀ rt newTok c, svc.validateToken tok = .error .expiredToken →
        req.refreshCookie = some rt →
        svc.refreshAccessToken rt = .ok newTok →
        svc.validateToken newTok = .ok c →
        requireAuth svc req
          = { aborted := none,
              state := { ctxUserID := some c.userID,
                         ctxUserRole := some c.role,
                         hdrNewAccessToken := some newTok,
                         hdrTokenType := some "Bearer" },
              calls := [.validateToken tok, .refreshAccessToken rt,
                        .validateToken newTok] })
    ∧ (svc.validateToken tok = .error .invalidToken →
        requireAuth svc req
          = { aborted := some .invalidToken, state := {},
              calls := [.validateToken tok] }
        ∧ ∀ rt, SvcCall.refreshAccessToken rt ∉ (requireAuth svc req).calls) := by
  have hne : ¬req.authHeader = "" := by
    intro h
    rw [h] at hsplit
    simp [splitN2, splitFirstSpace] at hsplit
  refine ⟨?_, ?_, ?_, ?_⟩
  · intro hval hcookie
    simp [requireAuth, hne, hsplit, hval, tryAutoRefresh, hcookie]
  · intro rt e hval hcookie hrefresh
    simp [requireAuth, hne, hsplit, hval, tryAutoRefresh, hcookie, hrefresh]
  · intro rt newTok c hval hcookie hrefresh hreval
    simp [requireAuth, hne, hsplit, hval, tryAutoRefresh, hcookie, hrefresh, hreval]
  · intro hval
    have hgate : requireAuth svc req
        = { aborted := some .invalidToken, state := {},
            calls := [.validateToken tok] } := by
      simp [requireAuth, hne, hsplit, hval]
    refine ⟨hgate, ?_⟩
    intro rt
    rw [hgate]
    simp

/-- A concrete auth-service oracle whose validation always reports the
expired kind and whose renewal always fails (for the C3 witness). -/
def svcOracleExpired : AuthSvc :=
  { validateToken := fun _ => .error .expiredToken,
    refreshAccessToken := fun _ => .error .invalidToken }

/-- Witness for C3: an expired access token with a refresh cookie whose
renewal fails is rejected with the original expired error, not the
renewal failure. -/
theorem requireAuth_expired_recovery_witness :
    requireAuth svcOracleExpired
        { authHeader := "Bearer tok1", refreshCookie := some "rt1" }
      = { aborted := some .expiredToken, state := {},
          calls := [.validateToken "tok1", .refreshAccessToken "rt1"] } :=
  (requireAuth_expired_recovery svcOracleExpired
      { authHeader := "Bearer tok1", refreshCookie := some "rt1" }
      "tok1" (by rfl)).2.1
    "rt1" .invalidToken rfl rfl rfl
